import Mathlib

/-!
Shallow embedding of `py_voat/classes.py` (python-voat).

Modelling conventions:
* Python attributes that may be absent, or set to `None`, are modelled as
  `Option` fields; `none` stands for "attribute missing or `None`", which is
  exactly what `getattr(self, k, None)` and the `is None` checks observe.
* A JSON payload is modelled as a record whose fields have type
  `Option (Option τ)`: the outer layer records whether the key is present,
  the inner layer whether its value is JSON `null`.
* Exceptions are modelled with `Except PyErr`.
* `time.time()` is modelled as an explicitly-passed integer clock value.
* The `Voat` API handle (class `Voat`, an external collaborator of
  `classes.py`) is modelled as a record of its three fetch operations used by
  the lazy properties.
* Each lazy `@property` getter becomes a function returning
  `(result, updated object, number of fetch calls made on the handle)`.
-/

namespace PyVoat

/-- The exception kinds the embedded code can raise. -/
inductive PyErr where
  | keyError
  | typeError
  | valueError
  | voatBadExpiry
  | voatExpiredToken
  deriving DecidableEq, Repr

/-! ### The entity graph

`Voat` (the API handle), `Submission`, `Subverse`, `Comment` refer to each
other, so they are declared mutually.  Field order follows the order the
attributes appear in the source. -/

mutual

/-- The API-access handle: the three operations `classes.py` invokes on
`self.voat`.  `get_comment` can raise, hence `Except`. -/
inductive Voat : Type where
  | mk (fetch_comments : Int → Option String → List Comment)
       (get_subverse_posts : Option String → List Submission)
       (get_comment : Int → Except PyErr Comment) : Voat

/-- A `Submission` object: the attributes set by `Submission.from_dict` /
`__init__`, plus the `voat` handle and the `_comments` memo cell. -/
inductive Submission : Type where
  | mk (title content : Option String)
       (author : Option String)
       (post_id : Option Int)
       (subverse : Option String)
       (karma views : Option Int)
       (date : Option String)
       (is_url : Option Bool)
       (voat : Option Voat)
       (cacheComments : Option (List Comment)) : Submission

/-- A `Subverse` object: attributes set by `Subverse.from_dict`, the `voat`
handle and the `_posts` memo cell. -/
inductive Subverse : Type where
  | mk (title name : Option String)
       (nsfw : Option Bool)
       (sidebar : Option String)
       (date : Option String)
       (subscribers : Option Int)
       (description : Option String)
       (voat : Option Voat)
       (cachePosts : Option (List Submission)) : Subverse

/-- A `Comment` object: attributes set by `Comment.from_dict`, the `voat`
handle and the `_parent` / `_children` memo cells. -/
inductive Comment : Type where
  | mk (comment_id : Option Int)
       (date : Option String)
       (content : Option String)
       (karma : Option Int)
       (subverse : Option String)
       (author : Option String)
       (parent_id : Option Int)
       (submission_id : Option Int)
       (voat : Option Voat)
       (cacheParent : Option Comment)
       (cacheChildren : Option (List Comment)) : Comment

end

/-! ### Accessors -/

def Voat.fetch_comments : Voat → Int → Option String → List Comment
  | .mk f _ _ => f

def Voat.get_subverse_posts : Voat → Option String → List Submission
  | .mk _ g _ => g

def Voat.get_comment : Voat → Int → Except PyErr Comment
  | .mk _ _ h => h

def Submission.title : Submission → Option String
  | .mk t _ _ _ _ _ _ _ _ _ _ => t

def Submission.content : Submission → Option String
  | .mk _ c _ _ _ _ _ _ _ _ _ => c

def Submission.author : Submission → Option String
  | .mk _ _ a _ _ _ _ _ _ _ _ => a

def Submission.post_id : Submission → Option Int
  | .mk _ _ _ p _ _ _ _ _ _ _ => p

def Submission.subverse : Submission → Option String
  | .mk _ _ _ _ s _ _ _ _ _ _ => s

def Submission.karma : Submission → Option Int
  | .mk _ _ _ _ _ k _ _ _ _ _ => k

def Submission.views : Submission → Option Int
  | .mk _ _ _ _ _ _ v _ _ _ _ => v

def Submission.date : Submission → Option String
  | .mk _ _ _ _ _ _ _ d _ _ _ => d

def Submission.is_url : Submission → Option Bool
  | .mk _ _ _ _ _ _ _ _ u _ _ => u

def Submission.voat : Submission → Option Voat
  | .mk _ _ _ _ _ _ _ _ _ v _ => v

def Submission.cacheComments : Submission → Option (List Comment)
  | .mk _ _ _ _ _ _ _ _ _ _ c => c

/-- Overwrite the `_comments` memo cell (the `comments.setter` /
assignment to `self._comments`). -/
def Submission.withCacheComments : Submission → Option (List Comment) → Submission
  | .mk t c a p s k v d u vo _, cc => .mk t c a p s k v d u vo cc

def Subverse.title : Subverse → Option String
  | .mk t _ _ _ _ _ _ _ _ => t

def Subverse.name : Subverse → Option String
  | .mk _ n _ _ _ _ _ _ _ => n

def Subverse.nsfw : Subverse → Option Bool
  | .mk _ _ n _ _ _ _ _ _ => n

def Subverse.sidebar : Subverse → Option String
  | .mk _ _ _ s _ _ _ _ _ => s

def Subverse.date : Subverse → Option String
  | .mk _ _ _ _ d _ _ _ _ => d

def Subverse.subscribers : Subverse → Option Int
  | .mk _ _ _ _ _ s _ _ _ => s

def Subverse.description : Subverse → Option String
  | .mk _ _ _ _ _ _ d _ _ => d

def Subverse.voat : Subverse → Option Voat
  | .mk _ _ _ _ _ _ _ v _ => v

def Subverse.cachePosts : Subverse → Option (List Submission)
  | .mk _ _ _ _ _ _ _ _ p => p

def Subverse.withCachePosts : Subverse → Option (List Submission) → Subverse
  | .mk t n f s d su de v _, p => .mk t n f s d su de v p

def Comment.comment_id : Comment → Option Int
  | .mk i _ _ _ _ _ _ _ _ _ _ => i

def Comment.date : Comment → Option String
  | .mk _ d _ _ _ _ _ _ _ _ _ => d

def Comment.content : Comment → Option String
  | .mk _ _ c _ _ _ _ _ _ _ _ => c

def Comment.karma : Comment → Option Int
  | .mk _ _ _ k _ _ _ _ _ _ _ => k

def Comment.subverse : Comment → Option String
  | .mk _ _ _ _ s _ _ _ _ _ _ => s

def Comment.author : Comment → Option String
  | .mk _ _ _ _ _ a _ _ _ _ _ => a

def Comment.parent_id : Comment → Option Int
  | .mk _ _ _ _ _ _ p _ _ _ _ => p

def Comment.submission_id : Comment → Option Int
  | .mk _ _ _ _ _ _ _ s _ _ _ => s

def Comment.voat : Comment → Option Voat
  | .mk _ _ _ _ _ _ _ _ v _ _ => v

def Comment.cacheParent : Comment → Option Comment
  | .mk _ _ _ _ _ _ _ _ _ p _ => p

def Comment.cacheChildren : Comment → Option (List Comment)
  | .mk _ _ _ _ _ _ _ _ _ _ c => c

def Comment.withCacheParent : Comment → Option Comment → Comment
  | .mk i d c k s a p su v _ ch, pa => .mk i d c k s a p su v pa ch

def Comment.withCacheChildren : Comment → Option (List Comment) → Comment
  | .mk i d c k s a p su v pa _, ch => .mk i d c k s a p su v pa ch

/-- Model of `self.__class__()` with no kwargs: the empty placeholder `Comment` — no
attribute set at all. -/
def Comment.empty : Comment :=
  .mk none none none none none none none none none none none

/-! ### Lazy properties

Each getter returns `(value, self after the access, fetch calls made)`.
The last component counts invocations of operations on the `voat` handle
during this access (0 or 1), so that "the fetch is not invoked again" is
observable in the model. -/

/-- The `Submission.comments` getter (classes.py lines 128-136). -/
def Submission.comments (s : Submission) : List Comment × Submission × Nat :=
  match s.cacheComments with
  | some c => (c, s, 0)
  | none =>
    match s.voat with
    | some v =>
      let r := v.fetch_comments (s.post_id.getD 0) s.subverse
      (r, s.withCacheComments (some r), 1)
    | none => ([], s.withCacheComments (some []), 0)

/-- The `Subverse.posts` getter (classes.py lines 158-165). -/
def Subverse.posts (s : Subverse) : List Submission × Subverse × Nat :=
  match s.cachePosts with
  | some p => (p, s, 0)
  | none =>
    match s.voat with
    | some v =>
      let r := v.get_subverse_posts s.name
      (r, s.withCachePosts (some r), 1)
    | none => ([], s.withCachePosts (some []), 0)

/-- The `Comment.parent` getter (classes.py lines 190-200).  A raising
`get_comment` still counts as one fetch call; the `except:` clause replaces
the failure with the empty placeholder. -/
def Comment.parent (c : Comment) : Comment × Comment × Nat :=
  match c.cacheParent with
  | some p => (p, c, 0)
  | none =>
    match c.voat, c.parent_id with
    | some v, some pid =>
      match v.get_comment pid with
      | .ok p => (p, c.withCacheParent (some p), 1)
      | .error _ => (Comment.empty, c.withCacheParent (some Comment.empty), 1)
    | _, _ => (Comment.empty, c.withCacheParent (some Comment.empty), 0)

/-- The `Comment.children` getter (classes.py lines 202-210). -/
def Comment.children (c : Comment) : List Comment × Comment × Nat :=
  match c.cacheChildren with
  | some ch => (ch, c, 0)
  | none =>
    match c.submission_id, c.voat with
    | some sid, some v =>
      let comments := v.fetch_comments sid c.subverse
      let r := comments.filter (fun i => i.parent_id == c.comment_id)
      (r, c.withCacheChildren (some r), 1)
    | _, _ => ([], c.withCacheChildren (some []), 0)

/-! ### JSON payloads

A payload is a record of the keys `classes.py` reads.  Every field has type
`Option (Option τ)`: outer `none` = key absent, `some none` = key present
with JSON `null`, `some (some x)` = key present with value `x`. -/

structure JsonDict where
  title : Option (Option String) := none
  content : Option (Option String) := none
  userName : Option (Option String) := none
  id : Option (Option Int) := none
  subverse : Option (Option String) := none
  upVotes : Option (Option Int) := none
  downVotes : Option (Option Int) := none
  views : Option (Option Int) := none
  date : Option (Option String) := none
  url : Option (Option String) := none
  name : Option (Option String) := none
  ratedAdult : Option (Option Bool) := none
  sidebar : Option (Option String) := none
  creationDate : Option (Option String) := none
  subscriberCount : Option (Option Int) := none
  description : Option (Option String) := none
  parentID : Option (Option Int) := none
  submissionID : Option (Option Int) := none

/-- Model of `json_data.get(key, default)`: the default is used only when the key is
absent; a `null` value comes back as Python `None` (modelled `none`). -/
def pyGet {α : Type} (field : Option (Option α)) (dflt : α) : Option α :=
  match field with
  | none => some dflt
  | some v => v

/-- Model of `json_data.get(key)` with no default. -/
def pyGetN {α : Type} (field : Option (Option α)) : Option α :=
  match field with
  | none => none
  | some v => v

/-- Python `a - b` on two values that should be ints: `None` operands raise
`TypeError`. -/
def pySub (a b : Option Int) : Except PyErr Int :=
  match a, b with
  | some x, some y => .ok (x - y)
  | _, _ => .error .typeError

/-- Python truthiness of an optional string (`bool(x)`): `None` and `""` are
falsy. -/
def pyTruthy (s : Option String) : Bool :=
  match s with
  | none => false
  | some v => !v.isEmpty

/-- Model of `x or None`: `x` when truthy, else `None`. -/
def pyOrNone (s : Option String) : Option String :=
  if pyTruthy s then s else none

/-- Model of the external `datetime.strptime(s, "%Y-%m-%dT%H:%M:%S")`
succeeding: a 4-digit year, 2-digit month/day/hour/minute/second in the
exact `YYYY-MM-DDTHH:MM:SS` shape (calendar range checks of the external
library are not modelled; no claim depends on them). -/
def strptimeOk (s : String) : Bool :=
  match s.toList with
  | [y1, y2, y3, y4, '-', m1, m2, '-', d1, d2, 'T', h1, h2, ':', n1, n2, ':', s1, s2] =>
      [y1, y2, y3, y4, m1, m2, d1, d2, h1, h2, n1, n2, s1, s2].all Char.isDigit
  | _ => false

/-! ### `from_dict` factories -/

/-- Model of `Submission.from_dict` (classes.py lines 109-126).  The `strptime` call
on a present, non-empty `date` raises `ValueError` when the format does not
match; `comments=None` goes through the `comments.setter` and `__init__`
re-sets `self._comments = None`, so the memo cell starts empty. -/
def Submission.from_dict (j : JsonDict) (voat_instance : Option Voat) :
    Except PyErr Submission :=
  let date := pyOrNone (pyGetN j.date)
  let inst : Submission :=
    .mk (pyGet j.title "") (pyGet j.content "") (pyGet j.userName "")
      (pyGet j.id (-1)) (pyGet j.subverse "") (pyGet j.upVotes (-1))
      (pyGet j.views (-1)) date (some (pyTruthy (pyGetN j.url)))
      voat_instance none
  match date with
  | some d =>
    if strptimeOk ((d.splitOn ".").headD "") then .ok inst else .error .valueError
  | none => .ok inst

/-- Model of `Subverse.from_dict` (classes.py lines 145-156).  Every key is read with
`.get`, so this factory never raises. -/
def Subverse.from_dict (j : JsonDict) (voat_instance : Option Voat) :
    Subverse :=
  .mk (pyGet j.title "") (pyGet j.name "") (pyGetN j.ratedAdult)
    (pyGet j.sidebar "") (pyGetN j.creationDate) (pyGet j.subscriberCount (-1))
    (pyGet j.description "") voat_instance none

/-- Model of `Comment.from_dict` (classes.py lines 173-187).  Every key is read with
`json_data[...]`, raising `KeyError` when absent; the karma subtraction
raises `TypeError` on `null` vote counts.  Lookups happen in source
evaluation order. -/
def Comment.from_dict (j : JsonDict) (voat_instance : Option Voat) :
    Except PyErr Comment :=
  match j.date with
  | none => .error .keyError
  | some date =>
  match j.id with
  | none => .error .keyError
  | some cid =>
  match j.content with
  | none => .error .keyError
  | some content =>
  match j.upVotes with
  | none => .error .keyError
  | some u =>
  match j.downVotes with
  | none => .error .keyError
  | some d =>
  match pySub u d with
  | .error e => .error e
  | .ok karma =>
  match j.subverse with
  | none => .error .keyError
  | some subverse =>
  match j.userName with
  | none => .error .keyError
  | some author =>
  match j.parentID with
  | none => .error .keyError
  | some pid =>
  match j.submissionID with
  | none => .error .keyError
  | some sid =>
    .ok (.mk cid date content (some karma) subverse author pid sid
          voat_instance none none)

/-! ### AuthToken -/

/-- Model of `str.isdigit()` (ASCII digits; the embedding identifies "isdigit" with
"parseable by `int`", which coincide on ASCII). -/
def pyIsDigit (s : String) : Bool :=
  !s.isEmpty && s.toList.all Char.isDigit

/-- Model of `int(s)` for a digit string: the base-10 value of its digits. -/
def pyIntOfDigits (s : String) : Int :=
  (s.toList.foldl (fun acc c => acc * 10 + (c.toNat - 48)) 0 : Nat)

/-- The dynamic value passed as `expiry_date`: a Python `int` (Python
`bool`s are `int`s), a `str`, or any value of another type. -/
inductive ExpiryVal where
  | int (n : Int)
  | str (s : String)
  | other
  deriving DecidableEq, Repr

/-- An `AuthToken` after successful construction.  `time.time()` values are
modelled as integers; `_token` is the slot behind the `token` property. -/
structure AuthToken where
  username : String
  expiry_date : Int
  gotten_at : Int
  token_type : String
  _token : String
  deriving DecidableEq, Repr

/-- Model of `AuthToken.__init__` (classes.py lines 31-41): a digit string is parsed
to an int; anything then not an int raises `VoatBadExpiry`; `gotten_at` is
the construction-time clock value. -/
def AuthToken.init (username tok token_type : String) (expiry_date : ExpiryVal)
    (now : Int) : Except PyErr AuthToken :=
  let e := match expiry_date with
    | .str s => if pyIsDigit s then ExpiryVal.int (pyIntOfDigits s) else .str s
    | v => v
  match e with
  | .int n => .ok ⟨username, n, now, token_type, tok⟩
  | _ => .error .voatBadExpiry

/-- The `token` property (classes.py lines 64-69): raises `VoatExpiredToken`
once `now >= gotten_at + expiry_date`, else returns the stored token. -/
def AuthToken.token (a : AuthToken) (now : Int) : Except PyErr String :=
  if a.gotten_at + a.expiry_date ≤ now then .error .voatExpiredToken
  else .ok a._token

/-! ### Concrete sample objects used by witnesses -/

/-- A handle whose `get_comment` always raises. -/
def raisingVoat : Voat :=
  .mk (fun _ _ => []) (fun _ => []) (fun _ => .error .typeError)

/-- A comment with handle `raisingVoat`, `parent_id = 7`, empty memo cells. -/
def cRaise : Comment :=
  .mk (some 1) none none none none none (some 7) none (some raisingVoat) none none

/-- A fetched comment with `comment_id = 11`, `parent_id = 5`. -/
def kid1 : Comment :=
  .mk (some 11) none none none none none (some 5) none none none none

/-- A fetched comment with `comment_id = 12`, `parent_id = 6`. -/
def kid2 : Comment :=
  .mk (some 12) none none none none none (some 6) none none none none

/-- A fetched comment with `comment_id = 13`, `parent_id = 5`. -/
def kid3 : Comment :=
  .mk (some 13) none none none none none (some 5) none none none none

/-- A handle whose `fetch_comments` returns `[kid1, kid2, kid3]`. -/
def listVoat : Voat :=
  .mk (fun _ _ => [kid1, kid2, kid3]) (fun _ => []) (fun _ => .error .keyError)

/-- A comment with id 5 on submission 2, attached to `listVoat`. -/
def cList : Comment :=
  .mk (some 5) none none none none none none (some 2) (some listVoat) none none

/-- A top-level comment (`parent_id = None`) with an attached handle. -/
def cTop : Comment :=
  .mk (some 9) none none none none none none (some 2) (some listVoat) none none

/-- A hand-made submission with no handle and empty memo cell. -/
def sPlain : Submission :=
  .mk (some "t") none none (some 1) none none none none none none none

/-- A hand-made subverse with no handle and empty memo cell. -/
def svPlain : Subverse :=
  .mk (some "t") (some "n") none none none none none none none

/-- A hand-made comment with no handle and empty memo cells. -/
def cPlain : Comment :=
  .mk (some 3) none none none none none (some 1) (some 2) none none none

/-- The `Submission` produced by `Submission.from_dict({})`. -/
def s8 : Submission :=
  .mk (some "") (some "") (some "") (some (-1)) (some "") (some (-1))
    (some (-1)) none (some false) none none

/-- A payload with every `Comment.from_dict` key present (`date` and
`parentID` null), `upVotes = 10`, `downVotes = 3`. -/
def j7w : JsonDict :=
  { date := some none, id := some (some 5), content := some (some "c"),
    upVotes := some (some 10), downVotes := some (some 3),
    subverse := some (some "sv"), userName := some (some "me"),
    parentID := some none, submissionID := some (some 2) }

/-- A payload carrying only `upVotes = 10` and `downVotes = 3`. -/
def j7 : JsonDict :=
  { upVotes := some (some 10), downVotes := some (some 3) }

/-- All keys `Comment.from_dict` requires are present, with non-null vote
counts (success condition of the factory). -/
def commentPayloadOk (j : JsonDict) : Bool :=
  j.date.isSome && j.id.isSome && j.content.isSome &&
    (match j.upVotes, j.downVotes with
     | some (some _), some (some _) => true
     | _, _ => false) &&
    j.subverse.isSome && j.userName.isSome && j.parentID.isSome &&
    j.submissionID.isSome

/-! ### Claims -/

/-- Claim C3: for every constructed `AuthToken`, accessing the token raises
the expired-token error iff the current time is at or past
`gotten_at + expiry_date`; before that instant the access succeeds and
returns the stored token value. -/
theorem C3_token_expiry (a : AuthToken) (now : Int) :
    (a.token now = .error .voatExpiredToken ↔ a.gotten_at + a.expiry_date ≤ now)
    ∧ (now < a.gotten_at + a.expiry_date → a.token now = .ok a._token) := by
  unfold AuthToken.token
  constructor
  · by_cases h : a.gotten_at + a.expiry_date ≤ now <;> simp [h]
  · intro h
    rw [if_neg (by omega)]

/-- Witness for C3 at a concrete token and clock value. -/
theorem C3_token_expiry_witness :
    (AuthToken.mk "u" 10 0 "bearer" "tkn").token 5 = .ok "tkn" :=
  (C3_token_expiry (AuthToken.mk "u" 10 0 "bearer" "tkn") 5).2 (by decide)

/-- Claim C4: `AuthToken` construction raises the bad-expiry error iff the
expiry value is neither an integer nor a digit string; a digit string is
parsed to its integer value before being stored. -/
theorem C4_bad_expiry (u t tt : String) (e : ExpiryVal) (now : Int) :
    (AuthToken.init u t tt e now = .error .voatBadExpiry ↔
      (match e with
       | .int _ => False
       | .str s => pyIsDigit s = false
       | .other => True))
    ∧ (∀ s, e = .str s → pyIsDigit s = true →
        AuthToken.init u t tt e now = .ok ⟨u, pyIntOfDigits s, now, tt, t⟩) := by
  constructor
  · cases e with
    | int n => simp [AuthToken.init]
    | str s =>
      by_cases h : pyIsDigit s = true <;> simp [AuthToken.init, h]
    | other => simp [AuthToken.init]
  · rintro s rfl h
    simp [AuthToken.init, h]

/-- Witness for C4: the digit string "12" is parsed and stored as 12. -/
theorem C4_bad_expiry_witness :
    AuthToken.init "u" "t" "bearer" (.str "12") 0 = .ok ⟨"u", 12, 0, "bearer", "t"⟩ := by
  have h := (C4_bad_expiry "u" "t" "bearer" (.str "12") 0).2 "12" rfl (by decide)
  rw [show pyIntOfDigits "12" = 12 from by decide] at h
  exact h

/-- Claim C8: `Submission.from_dict({})` succeeds and yields empty title,
content and author, post id -1, empty subverse, karma -1, views -1, date
`None`, `is_url` false, and `comments` resolving to the empty list. -/
theorem C8_submission_defaults :
    Submission.from_dict {} none = .ok s8 ∧ s8.comments = ([], s8.withCacheComments (some []), 0) :=
  ⟨rfl, rfl⟩

/-- Claim C1: for every `Submission`, `Subverse` or `Comment`, a second
access to a lazy relation (`comments`, `posts`, `parent`, `children`)
returns exactly the value stored on the first access, leaves the object
unchanged, and makes no fetch call on the handle. -/
theorem C1_lazy_cached (s : Submission) (sv : Subverse) (c : Comment) :
    (s.comments.2.1).comments = (s.comments.1, s.comments.2.1, 0)
    ∧ (sv.posts.2.1).posts = (sv.posts.1, sv.posts.2.1, 0)
    ∧ (c.parent.2.1).parent = (c.parent.1, c.parent.2.1, 0)
    ∧ (c.children.2.1).children = (c.children.1, c.children.2.1, 0) := by
  refine ⟨?_, ?_, ?_, ?_⟩
  · rcases s with ⟨t, co, a, p, su, k, vw, d, u, vo, cc⟩
    cases cc with
    | some x => simp [Submission.comments, Submission.cacheComments]
    | none =>
      cases vo <;>
        simp [Submission.comments, Submission.cacheComments, Submission.voat,
          Submission.withCacheComments, Submission.post_id, Submission.subverse]
  · rcases sv with ⟨t, n, f, sb, d, su, de, vo, cp⟩
    cases cp with
    | some x => simp [Subverse.posts, Subverse.cachePosts]
    | none =>
      cases vo <;>
        simp [Subverse.posts, Subverse.cachePosts, Subverse.voat,
          Subverse.withCachePosts, Subverse.name]
  · rcases c with ⟨i, d, co, k, su, a, p, sid, vo, pa, ch⟩
    cases pa with
    | some x => simp [Comment.parent, Comment.cacheParent]
    | none =>
      cases vo with
      | none =>
        simp [Comment.parent, Comment.cacheParent, Comment.voat,
          Comment.withCacheParent, Comment.parent_id]
      | some v =>
        cases p with
        | none =>
          simp [Comment.parent, Comment.cacheParent, Comment.voat,
            Comment.withCacheParent, Comment.parent_id]
        | some pid =>
          cases hgc : v.get_comment pid <;>
            simp [Comment.parent, Comment.cacheParent, Comment.voat,
              Comment.withCacheParent, Comment.parent_id, hgc]
  · rcases c with ⟨i, d, co, k, su, a, p, sid, vo, pa, ch⟩
    cases ch with
    | some x => simp [Comment.children, Comment.cacheChildren]
    | none =>
      cases sid <;> cases vo <;>
        simp [Comment.children, Comment.cacheChildren, Comment.voat,
          Comment.withCacheChildren, Comment.submission_id, Comment.subverse,
          Comment.comment_id]

/-- Claim C5: with no handle attached and empty memo cells, the first access
to each lazy relation makes no fetch call and returns the empty default
(empty list, or the empty placeholder comment for `parent`). -/
theorem C5_no_handle_defaults (s : Submission) (sv : Subverse) (c : Comment)
    (hs : s.voat = none) (hsc : s.cacheComments = none)
    (hv : sv.voat = none) (hvc : sv.cachePosts = none)
    (hc : c.voat = none) (hcp : c.cacheParent = none)
    (hcc : c.cacheChildren = none) :
    s.comments = ([], s.withCacheComments (some []), 0)
    ∧ sv.posts = ([], sv.withCachePosts (some []), 0)
    ∧ c.parent = (Comment.empty, c.withCacheParent (some Comment.empty), 0)
    ∧ c.children = ([], c.withCacheChildren (some []), 0) := by
  refine ⟨?_, ?_, ?_, ?_⟩
  · rcases s with ⟨t, co, a, p, su, k, vw, d, u, vo, cc⟩
    simp_all [Submission.comments, Submission.cacheComments, Submission.voat]
  · rcases sv with ⟨t, n, f, sb, d, su, de, vo, cp⟩
    simp_all [Subverse.posts, Subverse.cachePosts, Subverse.voat]
  · rcases c with ⟨i, d, co, k, su, a, p, sid, vo, pa, ch⟩
    simp_all [Comment.parent, Comment.cacheParent, Comment.voat]
  · rcases c with ⟨i, d, co, k, su, a, p, sid, vo, pa, ch⟩
    cases sid <;>
      simp_all [Comment.children, Comment.cacheChildren, Comment.voat,
        Comment.submission_id]

/-- Witness for C5: concrete hand-made entities with no handle. -/
theorem C5_no_handle_defaults_witness :
    sPlain.comments = ([], sPlain.withCacheComments (some []), 0)
    ∧ svPlain.posts = ([], svPlain.withCachePosts (some []), 0)
    ∧ cPlain.parent = (Comment.empty, cPlain.withCacheParent (some Comment.empty), 0)
    ∧ cPlain.children = ([], cPlain.withCacheChildren (some []), 0) :=
  C5_no_handle_defaults sPlain svPlain cPlain rfl rfl rfl rfl rfl rfl rfl

/-- Claim C10: a comment whose `parent_id` is `None` resolves `parent` to
the empty placeholder without any fetch call, even when a handle is
attached. -/
theorem C10_top_level_no_fetch (c : Comment)
    (hp : c.parent_id = none) (hcp : c.cacheParent = none) :
    c.parent = (Comment.empty, c.withCacheParent (some Comment.empty), 0) := by
  rcases c with ⟨i, d, co, k, su, a, p, sid, vo, pa, ch⟩
  cases vo <;>
    simp_all [Comment.parent, Comment.cacheParent, Comment.voat, Comment.parent_id]

/-- Witness for C10: `cTop` has an attached handle and no parent id. -/
theorem C10_top_level_no_fetch_witness :
    cTop.parent = (Comment.empty, cTop.withCacheParent (some Comment.empty), 0) :=
  C10_top_level_no_fetch cTop rfl rfl

/-- Claim C2: when the handle's `get_comment` raises on a comment with a
parent id and an empty memo cell, `parent` swallows the error and returns
the empty placeholder (the one fetch call having been made). -/
theorem C2_parent_swallows_error (c : Comment) (v : Voat) (pid : Int) (e : PyErr)
    (hv : c.voat = some v) (hp : c.parent_id = some pid)
    (hcp : c.cacheParent = none) (he : v.get_comment pid = .error e) :
    c.parent = (Comment.empty, c.withCacheParent (some Comment.empty), 1) := by
  rcases c with ⟨i, d, co, k, su, a, p, sid, vo, pa, ch⟩
  simp_all [Comment.parent, Comment.cacheParent, Comment.voat, Comment.parent_id]

/-- Witness for C2: `cRaise` is attached to a handle whose `get_comment`
always raises. -/
theorem C2_parent_swallows_error_witness :
    cRaise.parent = (Comment.empty, cRaise.withCacheParent (some Comment.empty), 1) :=
  C2_parent_swallows_error cRaise raisingVoat 7 .typeError rfl rfl rfl rfl

/-- Claim C9: with a handle and a submission id attached and an empty memo
cell, `children` is exactly the fetched comment list of the owning
submission filtered to the elements whose `parent_id` equals this comment's
id, in fetched order. -/
theorem C9_children_filter (c : Comment) (v : Voat) (sid cid : Int)
    (hv : c.voat = some v) (hs : c.submission_id = some sid)
    (hid : c.comment_id = some cid) (hcc : c.cacheChildren = none) :
    c.children.1 = (v.fetch_comments sid c.subverse).filter
      (fun i => i.parent_id == some cid) := by
  rcases c with ⟨i, d, co, k, su, a, p, si, vo, pa, ch⟩
  simp_all [Comment.children, Comment.cacheChildren, Comment.voat,
    Comment.submission_id, Comment.comment_id, Comment.subverse]

/-- Witness for C9: of the three fetched comments, exactly the two with
`parent_id = 5` are returned, in order. -/
theorem C9_children_filter_witness : cList.children.1 = [kid1, kid3] := by
  rw [C9_children_filter cList listVoat 2 5 rfl rfl rfl rfl]
  rfl

/-- Counterexample to C6 as stated: `Comment.from_dict` applied to the empty
payload raises `KeyError` instead of substituting defaults. -/
theorem C6_counterexample : Comment.from_dict {} none = .error .keyError := rfl

/-- Claim C6 (amended): `Submission.from_dict` and `Subverse.from_dict`
tolerate missing payload fields, substituting defaults (`Submission` can
only fail on a present, malformed date); `Comment.from_dict` succeeds
exactly when all nine keys it reads are present, with non-null vote
counts. -/
theorem C6_from_dict_defaults (j : JsonDict) (v : Option Voat) :
    (j.date = none → (Submission.from_dict j v).isOk = true)
    ∧ ((Comment.from_dict j v).isOk = true ↔ commentPayloadOk j = true)
    ∧ Subverse.from_dict {} v
        = .mk (some "") (some "") none (some "") none (some (-1)) (some "") v none := by
  refine ⟨?_, ?_, rfl⟩
  · intro h
    simp [Submission.from_dict, h, pyGetN, pyOrNone, pyTruthy, Except.isOk,
      Except.toBool]
  · rcases hda : j.date with _ | da <;>
      rcases hid : j.id with _ | idv <;>
        rcases hco : j.content with _ | cov <;>
          rcases huv : j.upVotes with _ | _ | uvv <;>
            rcases hdv : j.downVotes with _ | _ | dvv <;>
              rcases hsv : j.subverse with _ | svv <;>
                rcases hun : j.userName with _ | unv <;>
                  rcases hpi : j.parentID with _ | piv <;>
                    rcases hsi : j.submissionID with _ | siv <;>
                      simp [Comment.from_dict, commentPayloadOk, pySub,
                        Except.isOk, Except.toBool, hda, hid, hco, huv, hdv,
                        hsv, hun, hpi, hsi]

/-- Witness for C6 (amended): a date-free payload yields a submission, and a
complete payload yields a comment. -/
theorem C6_from_dict_defaults_witness :
    (Submission.from_dict j7 none).isOk = true
    ∧ (Comment.from_dict j7w none).isOk = true :=
  ⟨(C6_from_dict_defaults j7 none).1 rfl,
   (C6_from_dict_defaults j7w none).2.1.mpr (by decide)⟩

/-- Counterexample to C7 as stated: on a payload with `upVotes = 10` and
`downVotes = 3`, the submission built by `Submission.from_dict` has karma
10, not `10 - 3`. -/
theorem C7_counterexample :
    (Submission.from_dict j7 none).toOption.map Submission.karma = some (some 10)
    ∧ some (some (10 : Int)) ≠ some (some (10 - 3 : Int)) :=
  ⟨rfl, by decide⟩

/-- Claim C7 (amended): on payloads carrying `upVotes` and `downVotes`, the
comment built by `Comment.from_dict` has karma `upVotes - downVotes`, while
the submission built by `Submission.from_dict` has karma equal to `upVotes`
alone (`downVotes` is ignored). -/
theorem C7_karma (j : JsonDict) (v : Option Voat) (u d : Int)
    (hu : j.upVotes = some (some u)) (hd : j.downVotes = some (some d)) :
    (∀ c, Comment.from_dict j v = .ok c → c.karma = some (u - d))
    ∧ (∀ s, Submission.from_dict j v = .ok s → s.karma = some u) := by
  constructor
  · intro c h
    rcases hda : j.date with _ | da <;>
      rcases hid : j.id with _ | idv <;>
        rcases hco : j.content with _ | cov <;>
          rcases hsv : j.subverse with _ | svv <;>
            rcases hun : j.userName with _ | unv <;>
              rcases hpi : j.parentID with _ | piv <;>
                rcases hsi : j.submissionID with _ | siv <;>
                  simp only [Comment.from_dict, pySub, hda, hid, hco, hsv,
                    hun, hpi, hsi, hu, hd] at h <;>
                  first
                    | (injection h with h2; subst h2; rfl)
                    | simp at h
  · intro s h
    simp only [Submission.from_dict] at h
    rw [hu] at h
    cases hdd : pyOrNone (pyGetN j.date) with
    | none =>
      simp only [hdd] at h
      injection h with h2
      subst h2
      rfl
    | some dd =>
      simp only [hdd] at h
      by_cases hok : strptimeOk ((dd.splitOn ".").headD "") = true
      · rw [if_pos hok] at h
        injection h with h2
        subst h2
        rfl
      · rw [if_neg hok] at h
        exact absurd h (by simp)

/-- Witness for C7 (amended) at the concrete payload `j7w`
(`upVotes = 10`, `downVotes = 3`). -/
theorem C7_karma_witness :
    (Comment.from_dict j7w none).toOption.map Comment.karma = some (some (10 - 3))
    ∧ (Submission.from_dict j7w none).toOption.map Submission.karma = some (some 10) := by
  constructor
  · obtain ⟨c, hc⟩ : ∃ c, Comment.from_dict j7w none = .ok c := ⟨_, rfl⟩
    rw [hc, ← (C7_karma j7w none 10 3 rfl rfl).1 c hc]
    rfl
  · obtain ⟨s, hs⟩ : ∃ s, Submission.from_dict j7w none = .ok s := ⟨_, rfl⟩
    rw [hs, ← (C7_karma j7w none 10 3 rfl rfl).2 s hs]
    rfl

end PyVoat
